import Mathlib

/-!
Shallow embedding of `src/sled-agent/src/metrics.rs` (crate `sled-agent`,
module `metrics`): the `MetricsManager` façade over a kstat-based sampler,
its link-tracking map, its platform stub, and the `hostname` helper.

External collaborators (`KstatSampler`, `ProducerRegistry`, the
`gethostname` system call) are modelled as environments: the outcome of
each external call is an input to the embedded function, and the requests
the code issues to the sampler are recorded as an explicit operation list.
Opaque foreign values (UUIDs, target handles, durations, foreign error
payloads) are modelled as `Nat` / `String`.
-/

namespace Omicron.Metrics

/-- `uuid::Uuid`, opaque identity value. -/
abbrev Uuid := Nat

/-- `oximeter_instruments::kstat::TargetId`, the opaque collection handle. -/
abbrev TargetId := Nat

/-- `std::time::Duration`, opaque here (only carried into the policy). -/
abbrev Duration := Nat

/-- Modelled from the spec: the `sled_hardware::Baseboard` descriptor is not
under `src/`; the spec describes it as a tagged variant over identified
hardware with an identifier string, an unknown variant, and an alternate
hardware class (`Pc`) with its own identifier string. Field names follow the
patterns matched in `MetricsManager::serial_number`. -/
inductive Baseboard
  | Gimlet (identifier : String) (model : String) (revision : Nat)
  | Unknown
  | Pc (identifier : String) (model : String)
deriving DecidableEq, Repr

/-- The error enum of `metrics.rs`. Foreign payloads (`KstatError`,
`anyhow::Error`, `MetricsError`, `std::io::Error`) are modelled as their
message strings. -/
inductive Error
  | Kstat (source : String)
  | Registry (source : String)
  | Hostname (source : String)
  | NonUtf8Hostname
  | HostnameMissingNull
deriving DecidableEq, Repr

/-- `SledIdentifiers`: identity metadata held by the manager. -/
structure SledIdentifiers where
  sled_id : Uuid
  rack_id : Uuid
  baseboard : Baseboard
deriving DecidableEq, Repr

/-- `oximeter_instruments::kstat::link::PhysicalDataLink` target descriptor,
with exactly the fields `track_physical_link` populates. -/
structure PhysicalDataLink where
  rack_id : Uuid
  sled_id : Uuid
  serial : String
  hostname : String
  link_name : String
deriving DecidableEq, Repr

/-- `oximeter_instruments::kstat::link::VirtualDataLink` target descriptor,
with exactly the fields `track_virtual_link` populates. -/
structure VirtualDataLink where
  rack_id : Uuid
  sled_id : Uuid
  serial : String
  hostname : String
  link_name : String
deriving DecidableEq, Repr

/-- `CollectionDetails`: the only policy the code uses is
`CollectionDetails::never(interval)` (never expire, sample every interval). -/
inductive CollectionDetails
  | never (interval : Duration)
deriving DecidableEq, Repr

/-! ### The tracked-links map

`tracked_links : BTreeMap<String, TargetId>` is modelled as an association
list with `BTreeMap` semantics: `insert` overwrites an existing binding and
returns the previous value, `remove` deletes a binding and returns it. -/

abbrev Tracker := List (String × TargetId)

/-- Lookup in the map (`BTreeMap::get`). -/
def Tracker.get : Tracker → String → Option TargetId
  | [], _ => none
  | (k, v) :: rest, name => if k = name then some v else Tracker.get rest name

/-- `BTreeMap::insert`: overwrite-or-add, returning the map and the previous
value under the key, if any. -/
def Tracker.insert : Tracker → String → TargetId → Tracker × Option TargetId
  | [], name, id => ([(name, id)], none)
  | (k, v) :: rest, name, id =>
    if k = name then ((name, id) :: rest, some v)
    else
      let r := Tracker.insert rest name id
      ((k, v) :: r.1, r.2)

/-- `BTreeMap::remove`: delete the binding for the key, returning the map and
the removed value, if any. -/
def Tracker.remove : Tracker → String → Tracker × Option TargetId
  | [], _ => ([], none)
  | (k, v) :: rest, name =>
    if k = name then (rest, some v)
    else
      let r := Tracker.remove rest name
      ((k, v) :: r.1, r.2)

/-- `BTreeMap` keys are unique; an arbitrary association list represents a
reachable map state only when its keys are pairwise distinct. -/
def Tracker.KeysNodup (t : Tracker) : Prop := (t.map Prod.fst).Nodup

instance (t : Tracker) : Decidable (Tracker.KeysNodup t) := by
  unfold Tracker.KeysNodup
  infer_instance

/-! ### Hostname resolution (`fn hostname`, illumos only)

The `libc::gethostname` call is external; its outcome (failure with an OS
error, or the buffer contents it leaves behind) is an input. The rest of the
function — splitting the buffer at NUL bytes, the `CString::new` interior-NUL
check, and the UTF-8 validation done by `CString::into_string` — is embedded
directly. Bytes are `Nat` values. -/

/-- Outcome of the `gethostname` system call: a nonzero return with the OS
error `last_os_error()`, or a zero return leaving `out` in the buffer. -/
inductive GethostnameOutcome
  | fail (os_error : String)
  | ok (out : List Nat)
deriving DecidableEq, Repr

/-- A UTF-8 continuation byte. -/
def isCont (b : Nat) : Bool := 0x80 ≤ b && b ≤ 0xBF

/-- UTF-8 decoding as performed by Rust's `str::from_utf8` (reached through
`CString::into_string`): strict validation including overlong-encoding,
surrogate and maximum-scalar checks. -/
def utf8Decode : List Nat → Option (List Char)
  | [] => some []
  | b :: rest =>
    if b ≤ 0x7F then
      match utf8Decode rest with
      | some cs => some (Char.ofNat b :: cs)
      | none => none
    else if 0xC2 ≤ b && b ≤ 0xDF then
      match rest with
      | b1 :: rest1 =>
        if isCont b1 then
          match utf8Decode rest1 with
          | some cs => some (Char.ofNat ((b - 0xC0) * 0x40 + (b1 - 0x80)) :: cs)
          | none => none
        else none
      | [] => none
    else if 0xE0 ≤ b && b ≤ 0xEF then
      match rest with
      | b1 :: b2 :: rest2 =>
        if (if b = 0xE0 then 0xA0 else 0x80) ≤ b1 &&
            b1 ≤ (if b = 0xED then 0x9F else 0xBF) && isCont b2 then
          match utf8Decode rest2 with
          | some cs =>
            some (Char.ofNat
              ((b - 0xE0) * 0x1000 + (b1 - 0x80) * 0x40 + (b2 - 0x80)) :: cs)
          | none => none
        else none
      | _ => none
    else if 0xF0 ≤ b && b ≤ 0xF4 then
      match rest with
      | b1 :: b2 :: b3 :: rest3 =>
        if (if b = 0xF0 then 0x90 else 0x80) ≤ b1 &&
            b1 ≤ (if b = 0xF4 then 0x8F else 0xBF) && isCont b2 && isCont b3 then
          match utf8Decode rest3 with
          | some cs =>
            some (Char.ofNat
              ((b - 0xF0) * 0x40000 + (b1 - 0x80) * 0x1000 +
                (b2 - 0x80) * 0x40 + (b3 - 0x80)) :: cs)
          | none => none
        else none
      | _ => none
    else none

/-- `fn hostname() -> Result<String, Error>` (lines 259–279). On syscall
failure the code maps `last_os_error()` through `|_| Error::NonUtf8Hostname`,
discarding the OS error. On success it takes the first NUL-separated chunk
(`split(..).next()`, `HostnameMissingNull` if absent), runs it through
`CString::new` (interior-NUL check) and `into_string` (UTF-8 check), mapping
either failure to `NonUtf8Hostname`. -/
def hostname (g : GethostnameOutcome) : Except Error String :=
  match g with
  | .fail _ => .error .NonUtf8Hostname
  | .ok out =>
    match (out.splitOnP (· == 0)).head? with
    | none => .error .HostnameMissingNull
    | some chunk =>
      if chunk.contains 0 then .error .NonUtf8Hostname
      else
        match utf8Decode chunk with
        | none => .error .NonUtf8Hostname
        | some cs => .ok (String.mk cs)

/-! ### External sampler and registry boundary -/

/-- The `KstatSampler` value itself, opaque (only cloned and stored). -/
abbrev KstatSampler := Nat

/-- Behaviour of the external `KstatSampler` for one call: what each
`add_target` / `remove_target` request would return. Universally quantifying
over the environment covers every sampler behaviour. -/
structure SamplerEnv where
  addPhysical : PhysicalDataLink → CollectionDetails → Except String TargetId
  addVirtual : VirtualDataLink → CollectionDetails → Except String TargetId
  removeTarget : TargetId → Except String Unit

/-- A request the manager issues to the `KstatSampler`; operations return the
list of requests they made, so frame claims about the sampler are statable. -/
inductive SamplerOp
  | addPhysical (link : PhysicalDataLink) (details : CollectionDetails)
  | addVirtual (link : VirtualDataLink) (details : CollectionDetails)
  | removeTarget (id : TargetId)
deriving DecidableEq, Repr

/-- `oximeter::types::ProducerRegistry`: keyed by the id given to `with_id`,
holding the producers registered into it. -/
structure ProducerRegistry where
  producer_id : Uuid
  producers : List KstatSampler
deriving DecidableEq, Repr

/-- `ProducerRegistry::with_id`. -/
def ProducerRegistry.with_id (id : Uuid) : ProducerRegistry :=
  { producer_id := id, producers := [] }

/-- `ProducerRegistry::register_producer`: the external registry may reject
(`MetricsError`, modelled by the `outcome` argument); on acceptance the
producer is recorded. -/
def ProducerRegistry.register_producer (outcome : Except String Unit)
    (r : ProducerRegistry) (p : KstatSampler) : Except String ProducerRegistry :=
  match outcome with
  | .ok _ => .ok { r with producers := r.producers ++ [p] }
  | .error e => .error e

/-! ### MetricsManager, illumos variant -/

/-- `MetricsManager` on `target_os = "illumos"`: metadata, the sampler, the
mutex-guarded `tracked_links` map, and the registry. The logger is an opaque
side channel and is not modelled. -/
structure MetricsManager where
  metadata : SledIdentifiers
  kstat_sampler : KstatSampler
  tracked_links : Tracker
  registry : ProducerRegistry
deriving DecidableEq, Repr

/-- Environment for `MetricsManager::new`: the outcomes of the two external
calls it makes (`KstatSampler::new` and `register_producer`). -/
structure NewEnv where
  samplerNew : Except String KstatSampler
  registerOutcome : Except String Unit

/-- `MetricsManager::new` (lines 104–130), illumos branch: build the registry
keyed by `sled_id`, construct the sampler (`Error::Kstat` on failure),
register it (`Error::Registry` on rejection), start with an empty map. -/
def MetricsManager.new (env : NewEnv) (sled_id : Uuid) (rack_id : Uuid)
    (baseboard : Baseboard) : Except Error MetricsManager :=
  let registry := ProducerRegistry.with_id sled_id
  match env.samplerNew with
  | .error e => .error (.Kstat e)
  | .ok kstat_sampler =>
    match ProducerRegistry.register_producer env.registerOutcome registry
        kstat_sampler with
    | .error e => .error (.Registry e)
    | .ok registry1 =>
      .ok { metadata := { sled_id := sled_id, rack_id := rack_id,
                          baseboard := baseboard },
            kstat_sampler := kstat_sampler,
            tracked_links := [],
            registry := registry1 }

/-- `MetricsManager::serial_number` (lines 208–214). -/
def MetricsManager.serial_number (m : MetricsManager) : String :=
  match m.metadata.baseboard with
  | .Gimlet identifier _ _ => identifier
  | .Unknown => "unknown"
  | .Pc identifier _ => identifier

/-- The `PhysicalDataLink` value built in `track_physical_link`
(lines 147–153). -/
def physicalLinkOf (m : MetricsManager) (hn : String) (link_name : String) :
    PhysicalDataLink :=
  { rack_id := m.metadata.rack_id, sled_id := m.metadata.sled_id,
    serial := MetricsManager.serial_number m, hostname := hn,
    link_name := link_name }

/-- The `VirtualDataLink` value built in `track_virtual_link`
(lines 192–198). -/
def virtualLinkOf (m : MetricsManager) (hn : String) (link_name : String) :
    VirtualDataLink :=
  { rack_id := m.metadata.rack_id, sled_id := m.metadata.sled_id,
    serial := MetricsManager.serial_number m, hostname := hn,
    link_name := link_name }

/-- `MetricsManager::track_physical_link` (lines 141–165): resolve the local
hostname, build the physical-link descriptor, `add_target` with the
never-expire policy (`Error::Kstat` on rejection), then insert the returned
handle into `tracked_links` under the link name (the previous binding, if
any, is discarded). Returns the result, the manager state afterwards, and
the sampler requests issued. -/
def MetricsManager.track_physical_link (env : SamplerEnv)
    (g : GethostnameOutcome) (m : MetricsManager) (link_name : String)
    (interval : Duration) :
    Except Error Unit × MetricsManager × List SamplerOp :=
  match hostname g with
  | .error e => (.error e, m, [])
  | .ok hn =>
    let link := physicalLinkOf m hn link_name
    let details := CollectionDetails.never interval
    match env.addPhysical link details with
    | .error e => (.error (.Kstat e), m, [.addPhysical link details])
    | .ok id =>
      (.ok (),
        { m with tracked_links := (Tracker.insert m.tracked_links link_name id).1 },
        [.addPhysical link details])

/-- `MetricsManager::stop_tracking_link` (lines 171–182): remove the name
from `tracked_links` (under the lock); if a handle was present, ask the
sampler to remove it (`Error::Kstat` on rejection), otherwise succeed
without contacting the sampler. -/
def MetricsManager.stop_tracking_link (env : SamplerEnv) (m : MetricsManager)
    (link_name : String) :
    Except Error Unit × MetricsManager × List SamplerOp :=
  let r := Tracker.remove m.tracked_links link_name
  let m1 := { m with tracked_links := r.1 }
  match r.2 with
  | some id =>
    match env.removeTarget id with
    | .error e => (.error (.Kstat e), m1, [.removeTarget id])
    | .ok _ => (.ok (), m1, [.removeTarget id])
  | none => (.ok (), m1, [])

/-- `MetricsManager::track_virtual_link` (lines 186–205): build the
virtual-link descriptor from the caller-supplied hostname, `add_target` with
the never-expire policy, and `map(|_| ())` the returned handle away — it is
never inserted into `tracked_links`. -/
def MetricsManager.track_virtual_link (env : SamplerEnv) (m : MetricsManager)
    (link_name : String) (hn : String) (interval : Duration) :
    Except Error Unit × MetricsManager × List SamplerOp :=
  let link := virtualLinkOf m hn link_name
  let details := CollectionDetails.never interval
  match env.addVirtual link details with
  | .error e => (.error (.Kstat e), m, [.addVirtual link details])
  | .ok _ => (.ok (), m, [.addVirtual link details])

/-! ### MetricsManager, non-illumos stub variant -/

/-- `MetricsManager` on other platforms: no sampler, no tracked-links map. -/
structure MetricsManagerStub where
  metadata : SledIdentifiers
  registry : ProducerRegistry
deriving DecidableEq, Repr

/-- The message of the `anyhow!` error every stubbed operation returns. -/
def unsupportedMsg : String := "kstat metrics are not supported on this platform"

/-- Stubbed `track_physical_link` (lines 220–228). -/
def MetricsManagerStub.track_physical_link (m : MetricsManagerStub)
    (_link_name : String) (_interval : Duration) :
    Except Error Unit × MetricsManagerStub :=
  (.error (.Kstat unsupportedMsg), m)

/-- Stubbed `stop_tracking_link` (lines 234–241). -/
def MetricsManagerStub.stop_tracking_link (m : MetricsManagerStub)
    (_link_name : String) : Except Error Unit × MetricsManagerStub :=
  (.error (.Kstat unsupportedMsg), m)

/-- Stubbed `track_virtual_link` (lines 245–254). -/
def MetricsManagerStub.track_virtual_link (m : MetricsManagerStub)
    (_link_name : String) (_hostname : String) (_interval : Duration) :
    Except Error Unit × MetricsManagerStub :=
  (.error (.Kstat unsupportedMsg), m)

/-! ### Lock-scope decomposition of `stop_tracking_link`

In the source, the guard obtained by `self.tracked_links.lock().unwrap()` is
a temporary dropped at the end of the `let maybe_id = ...` statement; the
awaited `remove_target` call runs after the mutex is released (a
`std::sync::MutexGuard` cannot be held across an `.await`). The operation
therefore decomposes into two phases with an observable state in between.
`samplerLive` models the set of handles the external sampler currently
holds. -/

structure LinkTelemetryState where
  tracked_links : Tracker
  samplerLive : List TargetId
deriving DecidableEq, Repr

/-- Phase 1 of `stop_tracking_link`: take the lock, remove the name from the
map, release the lock, keeping the removed handle in the local
`maybe_id`. The sampler state is untouched. -/
def stopTrackingPhase1 (s : LinkTelemetryState) (link_name : String) :
    LinkTelemetryState × Option TargetId :=
  let r := Tracker.remove s.tracked_links link_name
  ({ s with tracked_links := r.1 }, r.2)

/-- Phase 2 of `stop_tracking_link`: the awaited `remove_target(id)` call,
made with no lock held, releasing the handle from the sampler. -/
def stopTrackingPhase2 (s : LinkTelemetryState) (maybe_id : Option TargetId) :
    LinkTelemetryState :=
  match maybe_id with
  | some id => { s with samplerLive := s.samplerLive.erase id }
  | none => s

/-! ### Concrete instances used by the witnesses -/

/-- A sampler that accepts every request. -/
def envAllOk : SamplerEnv :=
  { addPhysical := fun _ _ => .ok 7,
    addVirtual := fun _ _ => .ok 8,
    removeTarget := fun _ => .ok () }

/-- A successful `gethostname` leaving the bytes of `"hosta"` followed by
NUL padding in the buffer. -/
def ghostOk : GethostnameOutcome := .ok [104, 111, 115, 116, 97, 0, 0]

/-- A manager tracking nothing. -/
def mgrEmpty : MetricsManager :=
  { metadata := { sled_id := 1, rack_id := 2, baseboard := .Unknown },
    kstat_sampler := 0,
    tracked_links := [],
    registry := { producer_id := 1, producers := [0] } }

/-- A manager tracking `"net0"` under handle 5. -/
def mgrNet0 : MetricsManager := { mgrEmpty with tracked_links := [("net0", 5)] }

/-- A stub manager. -/
def stubMgr : MetricsManagerStub :=
  { metadata := { sled_id := 1, rack_id := 2, baseboard := .Unknown },
    registry := ProducerRegistry.with_id 1 }

/-! ### Map lemmas -/

theorem Tracker.get_insert_self (t : Tracker) (name : String) (id : TargetId) :
    Tracker.get (Tracker.insert t name id).1 name = some id := by
  induction t with
  | nil => simp [Tracker.insert, Tracker.get]
  | cons kv rest ih =>
    by_cases h : kv.1 = name
    · simp [Tracker.insert, Tracker.get, h]
    · simp [Tracker.insert, Tracker.get, h, ih]

theorem Tracker.get_insert_ne (t : Tracker) (n1 n2 : String) (id : TargetId)
    (h : n1 ≠ n2) :
    Tracker.get (Tracker.insert t n2 id).1 n1 = Tracker.get t n1 := by
  induction t with
  | nil => simp [Tracker.insert, Tracker.get, Ne.symm h]
  | cons kv rest ih =>
    by_cases hk : kv.1 = n2
    · subst hk
      simp [Tracker.insert, Tracker.get, Ne.symm h]
    · simp [Tracker.insert, Tracker.get, hk, ih]

theorem Tracker.insert_snd (t : Tracker) (name : String) (id : TargetId) :
    (Tracker.insert t name id).2 = Tracker.get t name := by
  induction t with
  | nil => simp [Tracker.insert, Tracker.get]
  | cons kv rest ih =>
    by_cases h : kv.1 = name
    · simp [Tracker.insert, Tracker.get, h]
    · simp [Tracker.insert, Tracker.get, h, ih]

theorem Tracker.remove_snd (t : Tracker) (name : String) :
    (Tracker.remove t name).2 = Tracker.get t name := by
  induction t with
  | nil => simp [Tracker.remove, Tracker.get]
  | cons kv rest ih =>
    by_cases h : kv.1 = name
    · simp [Tracker.remove, Tracker.get, h]
    · simp [Tracker.remove, Tracker.get, h, ih]

theorem Tracker.remove_of_get_none (t : Tracker) (name : String)
    (h : Tracker.get t name = none) : Tracker.remove t name = (t, none) := by
  induction t with
  | nil => simp [Tracker.remove]
  | cons kv rest ih =>
    by_cases hk : kv.1 = name
    · rw [Tracker.get] at h
      simp [hk] at h
    · rw [Tracker.get] at h
      simp [hk] at h
      simp [Tracker.remove, hk, ih h]

theorem Tracker.get_remove_self (t : Tracker) (name : String)
    (hw : Tracker.KeysNodup t) :
    Tracker.get (Tracker.remove t name).1 name = none := by
  induction t with
  | nil => simp [Tracker.remove, Tracker.get]
  | cons kv rest ih =>
    rw [Tracker.KeysNodup, List.map_cons, List.nodup_cons] at hw
    by_cases hk : kv.1 = name
    · subst hk
      simp only [Tracker.remove, if_pos rfl]
      cases hg : Tracker.get rest kv.1 with
      | none => exact hg
      | some id =>
        exfalso
        apply hw.1
        clear ih hw
        induction rest with
        | nil => simp [Tracker.get] at hg
        | cons kv2 rest2 ih2 =>
          rw [Tracker.get] at hg
          by_cases h2 : kv2.1 = kv.1
          · simp [h2]
          · simp [h2] at hg
            simp [ih2 hg]
    · simp [Tracker.remove, hk, Tracker.get, ih hw.2]

/-! ### Helper lemmas -/

/-- An error coming out of `hostname` is one of the two decode errors; the
`Hostname` and `Kstat` kinds never come out of it. -/
theorem hostname_error_shape (g : GethostnameOutcome) (e : Error)
    (h : hostname g = .error e) :
    e = Error.NonUtf8Hostname ∨ e = Error.HostnameMissingNull := by
  unfold hostname at h
  split at h
  · exact Or.inl (Except.error.inj h).symm
  · split at h
    · exact Or.inr (Except.error.inj h).symm
    · split at h
      · exact Or.inl (Except.error.inj h).symm
      · split at h
        · exact Or.inl (Except.error.inj h).symm
        · exact absurd h (by simp)

/-- Tracking a link under one name leaves the binding of every other name in
the map untouched, whichever way the hostname resolution and the sampler call
go. -/
theorem track_physical_get_other (env : SamplerEnv) (g : GethostnameOutcome)
    (m : MetricsManager) (n1 n2 : String) (i : Duration) (h : n1 ≠ n2) :
    Tracker.get
        (MetricsManager.track_physical_link env g m n2 i).2.1.tracked_links n1 =
      Tracker.get m.tracked_links n1 := by
  cases hg : hostname g with
  | error e => simp [MetricsManager.track_physical_link, hg]
  | ok hn =>
    cases ha : env.addPhysical (physicalLinkOf m hn n2)
        (CollectionDetails.never i) with
    | error e => simp [MetricsManager.track_physical_link, hg, ha]
    | ok id =>
      simp only [MetricsManager.track_physical_link, hg, ha]
      exact Tracker.get_insert_ne m.tracked_links n1 n2 id h

/-! ### Claim theorems -/

/-- C8: serial-number derivation is a total function of the baseboard
variant: `Gimlet` and the alternate hardware class `Pc` yield their carried
identifier string, and `Unknown` yields exactly `"unknown"`. -/
theorem serial_number_total (sid rid : Uuid) (ks : KstatSampler) (tr : Tracker)
    (reg : ProducerRegistry) (idf mdl : String) (rev : Nat) :
    MetricsManager.serial_number
        ⟨⟨sid, rid, .Gimlet idf mdl rev⟩, ks, tr, reg⟩ = idf ∧
    MetricsManager.serial_number
        ⟨⟨sid, rid, .Unknown⟩, ks, tr, reg⟩ = "unknown" ∧
    MetricsManager.serial_number
        ⟨⟨sid, rid, .Pc idf mdl⟩, ks, tr, reg⟩ = idf :=
  ⟨rfl, rfl, rfl⟩

/-- C5: on the platform-incapable variant, all three operations return the
`Kstat` error carrying the "not supported on this platform" message and
leave the manager state untouched. -/
theorem stub_ops_fail_unchanged (m : MetricsManagerStub) (name hn : String)
    (interval : Duration) :
    MetricsManagerStub.track_physical_link m name interval =
      (.error (.Kstat unsupportedMsg), m) ∧
    MetricsManagerStub.stop_tracking_link m name =
      (.error (.Kstat unsupportedMsg), m) ∧
    MetricsManagerStub.track_virtual_link m name hn interval =
      (.error (.Kstat unsupportedMsg), m) ∧
    unsupportedMsg = "kstat metrics are not supported on this platform" :=
  ⟨rfl, rfl, rfl, rfl⟩

/-- C1: when `track_physical_link` succeeds it has resolved the hostname,
issued exactly one `add_target` request built from the manager identity, the
baseboard serial, the hostname and the link name under the never-expire
policy, and stored the returned handle under the link name; a hostname
failure propagates without contacting the sampler and is never of `Kstat`
kind; the call fails with `Kstat` exactly when the sampler rejects the
add. -/
theorem track_physical_link_correct (env : SamplerEnv) (g : GethostnameOutcome)
    (m : MetricsManager) (name : String) (interval : Duration) :
    ((MetricsManager.track_physical_link env g m name interval).1 = .ok () →
      ∃ hn, hostname g = .ok hn) ∧
    (∀ e, hostname g = .error e →
      MetricsManager.track_physical_link env g m name interval =
        (.error e, m, []) ∧
      ∀ s, e ≠ .Kstat s) ∧
    (∀ hn, hostname g = .ok hn →
      (∀ id, env.addPhysical (physicalLinkOf m hn name)
          (CollectionDetails.never interval) = .ok id →
        MetricsManager.track_physical_link env g m name interval =
          (.ok (),
            { m with
                tracked_links := (Tracker.insert m.tracked_links name id).1 },
            [.addPhysical (physicalLinkOf m hn name)
              (CollectionDetails.never interval)]) ∧
        Tracker.get
            (MetricsManager.track_physical_link env g m name
              interval).2.1.tracked_links name = some id) ∧
      (∀ e, env.addPhysical (physicalLinkOf m hn name)
          (CollectionDetails.never interval) = .error e →
        MetricsManager.track_physical_link env g m name interval =
          (.error (.Kstat e), m,
            [.addPhysical (physicalLinkOf m hn name)
              (CollectionDetails.never interval)]))) := by
  refine ⟨?_, ?_, ?_⟩
  · intro hok
    cases hg : hostname g with
    | error e =>
      simp [MetricsManager.track_physical_link, hg] at hok
    | ok hn => exact ⟨hn, rfl⟩
  · intro e hg
    refine ⟨by simp [MetricsManager.track_physical_link, hg], ?_⟩
    intro s
    rcases hostname_error_shape g e hg with h1 | h1 <;> simp [h1]
  · intro hn hg
    refine ⟨?_, ?_⟩
    · intro id hadd
      refine ⟨by simp [MetricsManager.track_physical_link, hg, hadd], ?_⟩
      simp only [MetricsManager.track_physical_link, hg, hadd]
      exact Tracker.get_insert_self m.tracked_links name id
    · intro e hadd
      simp [MetricsManager.track_physical_link, hg, hadd]

/-- Witness for C1: a concrete successful call stores the fresh handle. -/
theorem track_physical_link_correct_witness :
    MetricsManager.track_physical_link envAllOk ghostOk mgrEmpty "net0" 10 =
      (.ok (), { mgrEmpty with tracked_links := [("net0", 7)] },
        [SamplerOp.addPhysical (physicalLinkOf mgrEmpty "hosta" "net0")
          (CollectionDetails.never 10)]) :=
  (((track_physical_link_correct envAllOk ghostOk mgrEmpty "net0" 10).2.2
    "hosta" rfl).1 7 rfl).1

/-- C2: `stop_tracking_link` removes the name from the tracker; with a
handle present it issues exactly one `remove_target` request for that handle
and fails with `Kstat` exactly when the sampler rejects it; with no handle
present it succeeds without contacting the sampler and changes nothing. -/
theorem stop_tracking_link_correct (env : SamplerEnv) (m : MetricsManager)
    (name : String) :
    (MetricsManager.stop_tracking_link env m name).2.1 =
      { m with tracked_links := (Tracker.remove m.tracked_links name).1 } ∧
    (Tracker.get m.tracked_links name = none →
      MetricsManager.stop_tracking_link env m name = (.ok (), m, [])) ∧
    (∀ id, Tracker.get m.tracked_links name = some id →
      (MetricsManager.stop_tracking_link env m name).2.2 =
        [SamplerOp.removeTarget id] ∧
      (env.removeTarget id = .ok () →
        (MetricsManager.stop_tracking_link env m name).1 = .ok ()) ∧
      (∀ e, env.removeTarget id = .error e →
        (MetricsManager.stop_tracking_link env m name).1 =
          .error (.Kstat e))) := by
  have hsnd := Tracker.remove_snd m.tracked_links name
  refine ⟨?_, ?_, ?_⟩
  · cases h2 : (Tracker.remove m.tracked_links name).2 with
    | none => simp [MetricsManager.stop_tracking_link, h2]
    | some id =>
      cases he : env.removeTarget id with
      | ok u => simp [MetricsManager.stop_tracking_link, h2, he]
      | error e => simp [MetricsManager.stop_tracking_link, h2, he]
  · intro hget
    have hr := Tracker.remove_of_get_none m.tracked_links name hget
    simp [MetricsManager.stop_tracking_link, hr]
  · intro id hget
    have h2 : (Tracker.remove m.tracked_links name).2 = some id := by
      rw [hsnd, hget]
    refine ⟨?_, ?_, ?_⟩
    · cases he : env.removeTarget id with
      | ok u => simp [MetricsManager.stop_tracking_link, h2, he]
      | error e => simp [MetricsManager.stop_tracking_link, h2, he]
    · intro he
      simp [MetricsManager.stop_tracking_link, h2, he]
    · intro e he
      simp [MetricsManager.stop_tracking_link, h2, he]

/-- Witness for C2: stopping a tracked name succeeds, and stopping a
never-tracked name is a trivial success with no sampler request. -/
theorem stop_tracking_link_correct_witness :
    (MetricsManager.stop_tracking_link envAllOk mgrNet0 "net0").1 = .ok () ∧
    MetricsManager.stop_tracking_link envAllOk mgrEmpty "eth9" =
      (.ok (), mgrEmpty, []) :=
  ⟨((stop_tracking_link_correct envAllOk mgrNet0 "net0").2.2 5 rfl).2.1 rfl,
   (stop_tracking_link_correct envAllOk mgrEmpty "eth9").2.1 rfl⟩

/-- C3: `track_virtual_link` issues exactly one `add_target` request for the
virtual-link descriptor but leaves the manager — in particular the
tracked-links map — unchanged, so a later `stop_tracking_link` on that name
(absent other operations) is a trivial success that issues no sampler
request. -/
theorem track_virtual_link_frame (env : SamplerEnv) (m : MetricsManager)
    (name hn : String) (interval : Duration) :
    (MetricsManager.track_virtual_link env m name hn interval).2.1 = m ∧
    (MetricsManager.track_virtual_link env m name hn interval).2.2 =
      [SamplerOp.addVirtual (virtualLinkOf m hn name)
        (CollectionDetails.never interval)] ∧
    (Tracker.get m.tracked_links name = none →
      MetricsManager.stop_tracking_link env
          (MetricsManager.track_virtual_link env m name hn interval).2.1 name =
        (.ok (),
          (MetricsManager.track_virtual_link env m name hn interval).2.1,
          [])) := by
  have hm : (MetricsManager.track_virtual_link env m name hn interval).2.1 = m := by
    cases ha : env.addVirtual (virtualLinkOf m hn name)
        (CollectionDetails.never interval) with
    | ok id => simp [MetricsManager.track_virtual_link, ha]
    | error e => simp [MetricsManager.track_virtual_link, ha]
  refine ⟨hm, ?_, ?_⟩
  · cases ha : env.addVirtual (virtualLinkOf m hn name)
        (CollectionDetails.never interval) with
    | ok id => simp [MetricsManager.track_virtual_link, ha]
    | error e => simp [MetricsManager.track_virtual_link, ha]
  · intro hget
    rw [hm]
    have hr := Tracker.remove_of_get_none m.tracked_links name hget
    simp [MetricsManager.stop_tracking_link, hr]

/-- Witness for C3: a concrete virtual-link call leaves the manager
unchanged and the follow-up stop is a trivial success. -/
theorem track_virtual_link_frame_witness :
    (MetricsManager.track_virtual_link envAllOk mgrEmpty "vnic0" "guest"
      10).2.1 = mgrEmpty ∧
    MetricsManager.stop_tracking_link envAllOk
        (MetricsManager.track_virtual_link envAllOk mgrEmpty "vnic0" "guest"
          10).2.1 "vnic0" =
      (.ok (),
        (MetricsManager.track_virtual_link envAllOk mgrEmpty "vnic0" "guest"
          10).2.1,
        []) :=
  ⟨(track_virtual_link_frame envAllOk mgrEmpty "vnic0" "guest" 10).1,
   (track_virtual_link_frame envAllOk mgrEmpty "vnic0" "guest" 10).2.2 rfl⟩

/-- C4: tracking a name already present overwrites the binding silently:
afterwards the map holds the fresh handle, the superseded handle is the one
the map insertion returns (and the code discards), and the only sampler
request issued is the add — no removal of the superseded handle. -/
theorem track_existing_overwrites (env : SamplerEnv) (g : GethostnameOutcome)
    (m : MetricsManager) (name hn : String) (interval : Duration)
    (old_id id : TargetId)
    (hold : Tracker.get m.tracked_links name = some old_id)
    (hg : hostname g = .ok hn)
    (hadd : env.addPhysical (physicalLinkOf m hn name)
      (CollectionDetails.never interval) = .ok id) :
    (MetricsManager.track_physical_link env g m name interval).1 = .ok () ∧
    Tracker.get (MetricsManager.track_physical_link env g m name
        interval).2.1.tracked_links name = some id ∧
    (Tracker.insert m.tracked_links name id).2 = some old_id ∧
    (MetricsManager.track_physical_link env g m name interval).2.2 =
      [SamplerOp.addPhysical (physicalLinkOf m hn name)
        (CollectionDetails.never interval)] := by
  refine ⟨?_, ?_, ?_, ?_⟩
  · simp [MetricsManager.track_physical_link, hg, hadd]
  · simp only [MetricsManager.track_physical_link, hg, hadd]
    exact Tracker.get_insert_self m.tracked_links name id
  · rw [Tracker.insert_snd, hold]
  · simp [MetricsManager.track_physical_link, hg, hadd]

/-- Witness for C4: re-tracking `"net0"` (handle 5) stores the fresh handle
7, the insertion returns the superseded handle 5, and only the add request
is issued. -/
theorem track_existing_overwrites_witness :
    (MetricsManager.track_physical_link envAllOk ghostOk mgrNet0 "net0"
      10).1 = .ok () ∧
    Tracker.get (MetricsManager.track_physical_link envAllOk ghostOk mgrNet0
        "net0" 10).2.1.tracked_links "net0" = some 7 ∧
    (Tracker.insert mgrNet0.tracked_links "net0" 7).2 = some 5 ∧
    (MetricsManager.track_physical_link envAllOk ghostOk mgrNet0 "net0"
        10).2.2 =
      [SamplerOp.addPhysical (physicalLinkOf mgrNet0 "hosta" "net0")
        (CollectionDetails.never 10)] :=
  track_existing_overwrites envAllOk ghostOk mgrNet0 "net0" "hosta" 10 5 7
    rfl rfl rfl

/-- C6: tracking `n1` and then a different name `n2` neither removes `n1`
from the tracker nor alters the handle stored under `n1`. -/
theorem track_distinct_preserves (env : SamplerEnv)
    (g1 g2 : GethostnameOutcome) (m : MetricsManager) (n1 n2 : String)
    (i1 i2 : Duration) (h : n1 ≠ n2) :
    Tracker.get (MetricsManager.track_physical_link env g2
        (MetricsManager.track_physical_link env g1 m n1 i1).2.1 n2
        i2).2.1.tracked_links n1 =
      Tracker.get (MetricsManager.track_physical_link env g1 m n1
        i1).2.1.tracked_links n1 :=
  track_physical_get_other env g2 _ n1 n2 i2 h

/-- Witness for C6: tracking `"net0"` then `"net1"` leaves the binding of
`"net0"` as it was after the first call. -/
theorem track_distinct_preserves_witness :
    Tracker.get (MetricsManager.track_physical_link envAllOk ghostOk
        (MetricsManager.track_physical_link envAllOk ghostOk mgrEmpty "net0"
          10).2.1 "net1" 10).2.1.tracked_links "net0" =
      Tracker.get (MetricsManager.track_physical_link envAllOk ghostOk
        mgrEmpty "net0" 10).2.1.tracked_links "net0" :=
  track_distinct_preserves envAllOk ghostOk ghostOk mgrEmpty "net0" "net1"
    10 10 (by decide)

/-- C7: `MetricsManager::new` on the kstat-capable platform fails with
`Kstat` if the sampler cannot be constructed, fails with `Registry` if
registration is rejected, and otherwise yields a manager holding the given
identity, the sampler registered into a fresh registry keyed by the node id,
and an empty tracker (no targets tracked at construction). -/
theorem new_correct (env : NewEnv) (sid rid : Uuid) (bb : Baseboard) :
    (∀ e, env.samplerNew = .error e →
      MetricsManager.new env sid rid bb = .error (.Kstat e)) ∧
    (∀ ks, env.samplerNew = .ok ks →
      (∀ e, env.registerOutcome = .error e →
        MetricsManager.new env sid rid bb = .error (.Registry e)) ∧
      (env.registerOutcome = .ok () →
        MetricsManager.new env sid rid bb =
          .ok { metadata :=
                  { sled_id := sid, rack_id := rid, baseboard := bb },
                kstat_sampler := ks,
                tracked_links := [],
                registry := { producer_id := sid, producers := [ks] } })) := by
  refine ⟨?_, ?_⟩
  · intro e he
    simp [MetricsManager.new, he]
  · intro ks hks
    refine ⟨?_, ?_⟩
    · intro e he
      simp [MetricsManager.new, hks, ProducerRegistry.register_producer, he]
    · intro he
      simp [MetricsManager.new, hks, ProducerRegistry.register_producer, he,
        ProducerRegistry.with_id]

/-- Witness for C7: a concrete successful construction. -/
theorem new_correct_witness :
    MetricsManager.new { samplerNew := .ok 3, registerOutcome := .ok () }
        1 2 .Unknown =
      .ok { metadata := { sled_id := 1, rack_id := 2, baseboard := .Unknown },
            kstat_sampler := 3, tracked_links := [],
            registry := { producer_id := 1, producers := [3] } } :=
  ((new_correct { samplerNew := .ok 3, registerOutcome := .ok () } 1 2
    .Unknown).2 3 rfl).2 rfl

/-- C9 counterexample: in `stop_tracking_link` the mutex guard is a
temporary dropped before the awaited `remove_target` call, so the tracker
removal and the sampler release are not in one critical section. Concretely,
from the state tracking `"net0"` under handle 5 with handle 5 live in the
sampler, the state observable after phase 1 (the lock already released) has
the tracker no longer holding `"net0"` while the sampler still holds
handle 5 — exactly the window the claim says cannot exist. -/
theorem stop_tracking_window :
    Tracker.get (stopTrackingPhase1 ⟨[("net0", 5)], [5]⟩
      "net0").1.tracked_links "net0" = none ∧
    5 ∈ (stopTrackingPhase1 ⟨[("net0", 5)], [5]⟩ "net0").1.samplerLive := by
  decide

/-- C9 (amended): `stop_tracking_link` removes the name from the tracker
under the lock and only afterwards — with the lock released — asks the
sampler to release the handle, which it keeps in a local variable; between
the two phases there is an observable window in which the tracker has
forgotten a handle the sampler still holds, and phase 2 then releases it. -/
theorem stop_tracking_two_phase (s : LinkTelemetryState) (name : String)
    (id : TargetId)
    (hw : Tracker.KeysNodup s.tracked_links)
    (hnd : s.samplerLive.Nodup)
    (hget : Tracker.get s.tracked_links name = some id)
    (hlive : id ∈ s.samplerLive) :
    (stopTrackingPhase1 s name).2 = some id ∧
    Tracker.get (stopTrackingPhase1 s name).1.tracked_links name = none ∧
    id ∈ (stopTrackingPhase1 s name).1.samplerLive ∧
    id ∉ (stopTrackingPhase2 (stopTrackingPhase1 s name).1
      (stopTrackingPhase1 s name).2).samplerLive := by
  have h2 : (stopTrackingPhase1 s name).2 = some id := by
    simp [stopTrackingPhase1, Tracker.remove_snd, hget]
  refine ⟨h2, ?_, ?_, ?_⟩
  · simp only [stopTrackingPhase1]
    exact Tracker.get_remove_self s.tracked_links name hw
  · simpa [stopTrackingPhase1] using hlive
  · rw [h2]
    simp only [stopTrackingPhase2, stopTrackingPhase1]
    exact hnd.not_mem_erase

/-- Witness for amended C9: the two phases on a concrete state. -/
theorem stop_tracking_two_phase_witness :
    (stopTrackingPhase1 ⟨[("net1", 6)], [6]⟩ "net1").2 = some 6 ∧
    Tracker.get (stopTrackingPhase1 ⟨[("net1", 6)], [6]⟩
      "net1").1.tracked_links "net1" = none ∧
    6 ∈ (stopTrackingPhase1 ⟨[("net1", 6)], [6]⟩ "net1").1.samplerLive ∧
    6 ∉ (stopTrackingPhase2 (stopTrackingPhase1 ⟨[("net1", 6)], [6]⟩
      "net1").1 (stopTrackingPhase1 ⟨[("net1", 6)], [6]⟩
      "net1").2).samplerLive :=
  stop_tracking_two_phase ⟨[("net1", 6)], [6]⟩ "net1" 6 (by decide)
    (by decide) rfl (by decide)

/-- C10: the `Hostname` error kind is dead code: when the `gethostname`
system call fails, `hostname` discards the obtained OS error and returns
`NonUtf8Hostname`, and no operation of either platform variant ever returns
the `Hostname` kind. -/
theorem hostname_kind_never_returned (g : GethostnameOutcome) (os : String)
    (env : SamplerEnv) (nenv : NewEnv) (m : MetricsManager)
    (ms : MetricsManagerStub) (name hn s : String) (interval : Duration)
    (sid rid : Uuid) (bb : Baseboard) :
    hostname (.fail os) = .error .NonUtf8Hostname ∧
    hostname g ≠ .error (.Hostname s) ∧
    (MetricsManager.track_physical_link env g m name interval).1 ≠
      .error (.Hostname s) ∧
    (MetricsManager.stop_tracking_link env m name).1 ≠
      .error (.Hostname s) ∧
    (MetricsManager.track_virtual_link env m name hn interval).1 ≠
      .error (.Hostname s) ∧
    MetricsManager.new nenv sid rid bb ≠ .error (.Hostname s) ∧
    (MetricsManagerStub.track_physical_link ms name interval).1 ≠
      .error (.Hostname s) ∧
    (MetricsManagerStub.stop_tracking_link ms name).1 ≠
      .error (.Hostname s) ∧
    (MetricsManagerStub.track_virtual_link ms name hn interval).1 ≠
      .error (.Hostname s) := by
  refine ⟨rfl, ?_, ?_, ?_, ?_, ?_, ?_, ?_, ?_⟩
  · intro h
    rcases hostname_error_shape g (.Hostname s) h with h1 | h1 <;> simp at h1
  · intro h
    cases hg : hostname g with
    | error e =>
      simp only [MetricsManager.track_physical_link, hg] at h
      rcases hostname_error_shape g e hg with h1 | h1 <;>
        rw [h1] at h <;> simp at h
    | ok hn2 =>
      cases ha : env.addPhysical (physicalLinkOf m hn2 name)
          (CollectionDetails.never interval) with
      | ok id => simp [MetricsManager.track_physical_link, hg, ha] at h
      | error e => simp [MetricsManager.track_physical_link, hg, ha] at h
  · intro h
    cases h2 : (Tracker.remove m.tracked_links name).2 with
    | none => simp [MetricsManager.stop_tracking_link, h2] at h
    | some id =>
      cases he : env.removeTarget id with
      | ok u => simp [MetricsManager.stop_tracking_link, h2, he] at h
      | error e => simp [MetricsManager.stop_tracking_link, h2, he] at h
  · intro h
    cases ha : env.addVirtual (virtualLinkOf m hn name)
        (CollectionDetails.never interval) with
    | ok id => simp [MetricsManager.track_virtual_link, ha] at h
    | error e => simp [MetricsManager.track_virtual_link, ha] at h
  · intro h
    cases hks : nenv.samplerNew with
    | error e => simp [MetricsManager.new, hks] at h
    | ok ks =>
      cases hro : nenv.registerOutcome with
      | ok u =>
        simp [MetricsManager.new, hks, hro,
          ProducerRegistry.register_producer] at h
      | error e =>
        simp [MetricsManager.new, hks, hro,
          ProducerRegistry.register_producer] at h
  · intro h
    simp [MetricsManagerStub.track_physical_link] at h
  · intro h
    simp [MetricsManagerStub.stop_tracking_link] at h
  · intro h
    simp [MetricsManagerStub.track_virtual_link] at h

/-- Witness for C10: the syscall-failure path at a concrete input. -/
theorem hostname_kind_never_returned_witness :
    hostname (.fail "x") = .error .NonUtf8Hostname :=
  (hostname_kind_never_returned (.fail "x") "x" envAllOk
    { samplerNew := .ok 3, registerOutcome := .ok () } mgrEmpty stubMgr
    "net0" "h" "s" 10 1 2 .Unknown).1

end Omicron.Metrics
